import Mathlib

/-!
Shallow embedding of the workflow task orchestration engine of
`workflow_state_machine.py` (together with the `WorkflowStep` / `Workflow`
models of `config_manager.py`), and proofs about it.

Modelling conventions:
* Python `datetime` values are modelled as `Nat` timestamps; an ISO-8601
  rendering of a timestamp is modelled as the (never empty) decimal digit
  list of `n + 1`, so that rendering is injective and never the empty
  string, exactly as `datetime.isoformat` is.
* Python `str` fields are `String`, `Optional[X]` is `Option X`,
  `List[X]` is `List X`, and `Dict[str, X]` is an association list
  `List (String × X)` updated by `dict_set`.
* Free-form `Any` payloads (step results, metadata values,
  conversation-history entries) are modelled as `String` payloads; their
  content is never inspected by the engine.
* The `transitions` `Machine` attached to each task is modelled by the
  trigger functions below: a trigger fired in a state that is not a
  declared source (or whose condition fails) is a no-op
  (`ignore_invalid_triggers=True`); otherwise the state is set to the
  destination and the declared `after` callback runs.  Keyword arguments
  passed to a trigger (such as `fail_task(error_message=...)`) are held in
  the event data and are NOT applied to the model; none of the registered
  callbacks reads them, so they are dropped, which the embedding mirrors.
* The Redis store is modelled as an association list from task id to the
  stored task.  `WorkflowTask.from_dict ∘ WorkflowTask.to_dict = id`
  (proved below), so storing the task itself is faithful to storing its
  serialized snapshot.
-/

/-- `class TaskState(str, Enum)` of `workflow_state_machine.py`. -/
inductive TaskState where
  | IDLE
  | QUEUED
  | RUNNING
  | WAITING_FOR_DEPENDENCY
  | COMPLETED
  | FAILED
  | CANCELLED
  | RETRYING
deriving DecidableEq, Repr

/-- The `.value` string of each `TaskState` member. -/
def TaskState.value : TaskState → String
  | .IDLE => "idle"
  | .QUEUED => "queued"
  | .RUNNING => "running"
  | .WAITING_FOR_DEPENDENCY => "waiting_for_dependency"
  | .COMPLETED => "completed"
  | .FAILED => "failed"
  | .CANCELLED => "cancelled"
  | .RETRYING => "retrying"

/-- `class TaskPriority(str, Enum)`. -/
inductive TaskPriority where
  | LOW
  | NORMAL
  | HIGH
  | URGENT
deriving DecidableEq, Repr

/-- The `.value` string of each `TaskPriority` member. -/
def TaskPriority.value : TaskPriority → String
  | .LOW => "low"
  | .NORMAL => "normal"
  | .HIGH => "high"
  | .URGENT => "urgent"

/-- The `TaskPriority(s)` enum constructor: `some` member whose value is
`s`, or `none` (Python raises `ValueError`) for any other string. -/
def TaskPriority.ofValue (s : String) : Option TaskPriority :=
  if s = "low" then some .LOW
  else if s = "normal" then some .NORMAL
  else if s = "high" then some .HIGH
  else if s = "urgent" then some .URGENT
  else none

/-- `datetime_to_iso`: `dt.isoformat() if dt else None`.  The ISO string of
the instant `n` is modelled as the decimal digit list of `n + 1`, which is
injective and never empty (as `isoformat` output never is). -/
def datetime_to_iso (dt : Option Nat) : Option (List Nat) :=
  dt.map (fun n => Nat.digits 10 (n + 1))

/-- `iso_to_datetime`: `datetime.fromisoformat(s) if s else None` (the
empty string is falsy in Python). -/
def iso_to_datetime (s : Option (List Nat)) : Option Nat :=
  match s with
  | none => none
  | some l => if l = [] then none else some (Nat.ofDigits 10 l - 1)

/-- Python dict assignment `d[k] = v` on an association list. -/
def dict_set {α : Type} (d : List (String × α)) (k : String) (v : α) :
    List (String × α) :=
  if d.any (fun p => p.1 = k) then
    d.map (fun p => if p.1 = k then (k, v) else p)
  else
    d ++ [(k, v)]

/-- `@dataclass class TaskExecution` — one recorded attempt of one step. -/
structure TaskExecution where
  task_id : String
  agent_name : String
  step_name : String
  start_time : Option Nat := none
  end_time : Option Nat := none
  result : Option String := none
  error : Option String := none
  retry_count : Nat := 0
  metadata : List (String × String) := []
deriving DecidableEq, Repr

/-- `@dataclass class WorkflowTask` — one workflow instance.  The `state`
field is a string (`state: str = TaskState.IDLE.value` in the source); the
transient `machine` handle is not part of the data. -/
structure WorkflowTask where
  task_id : String
  workflow_name : String
  user_input : String
  state : String := TaskState.IDLE.value
  priority : TaskPriority := .NORMAL
  created_at : Option Nat := none
  started_at : Option Nat := none
  completed_at : Option Nat := none
  error_message : Option String := none
  retry_count : Nat := 0
  max_retries : Nat := 3
  current_step : Option String := none
  completed_steps : List String := []
  failed_steps : List String := []
  step_executions : List (String × TaskExecution) := []
  final_result : Option String := none
  conversation_history : List (List (String × String)) := []
  metadata : List (String × String) := []
deriving DecidableEq, Repr

/-- `WorkflowTask.can_retry`. -/
def can_retry (t : WorkflowTask) : Bool :=
  decide (t.retry_count < t.max_retries)

/-- `class WorkflowStep(BaseModel)` of `config_manager.py`. -/
structure WorkflowStep where
  name : String
  agent : String
  required : Bool := true
  dependencies : List String := []
  retry_on_failure : Bool := true
deriving DecidableEq, Repr

/-- `class Workflow(BaseModel)` of `config_manager.py`. -/
structure Workflow where
  name : String
  description : String
  steps : List WorkflowStep
deriving DecidableEq, Repr

/-- `ConfigManager.get_workflow_config`: look a workflow up by name among
the configured workflows. -/
def get_workflow_config (cfg : List Workflow) (name : String) :
    Option Workflow :=
  cfg.find? (fun w => w.name = name)

/-! ## State-machine transitions

Each trigger below embeds one row of `WorkflowStateMachine.transitions`:
fired from a declared source state (with its condition true) it sets the
destination state and runs the declared `after` callback; fired from any
other state it is a no-op (`ignore_invalid_triggers=True`). -/

/-- `on_task_failed`: sets `completed_at` (failure time recorded as the
completion time).  Note that it does not touch `error_message`. -/
def on_task_failed (now : Nat) (t : WorkflowTask) : WorkflowTask :=
  { t with completed_at := some now }

/-- Trigger `fail_task`: RUNNING, WAITING_FOR_DEPENDENCY, RETRYING,
QUEUED → FAILED, then `on_task_failed`.  An `error_message=` keyword
argument given at the call site is carried in the event data only and is
never written to the task (no callback reads it). -/
def fail_task (now : Nat) (t : WorkflowTask) : WorkflowTask :=
  if t.state = TaskState.RUNNING.value ∨
     t.state = TaskState.WAITING_FOR_DEPENDENCY.value ∨
     t.state = TaskState.RETRYING.value ∨
     t.state = TaskState.QUEUED.value then
    on_task_failed now { t with state := TaskState.FAILED.value }
  else t

/-- `on_task_queued`: dispatch the Celery job.  On success the returned
job id (deterministically `celery_` + task id) is recorded in the task's
metadata and the task re-saved; on failure `fail_task(error_message=...)`
is fired — whose keyword argument is dropped (see `fail_task`). -/
def on_task_queued (now : Nat) (dispatchOk : Bool) (t : WorkflowTask) :
    WorkflowTask :=
  if dispatchOk then
    { t with metadata := dict_set t.metadata "celery_task_id" ("celery_" ++ t.task_id) }
  else
    fail_task now t

/-- Trigger `start_task` on the model: IDLE → QUEUED, then
`on_task_queued` (which attempts the dispatch). -/
def start_task_trigger (now : Nat) (dispatchOk : Bool) (t : WorkflowTask) :
    WorkflowTask :=
  if t.state = TaskState.IDLE.value then
    on_task_queued now dispatchOk { t with state := TaskState.QUEUED.value }
  else t

/-- Trigger `begin_execution`: QUEUED → RUNNING, then `on_task_started`
(sets `started_at`). -/
def begin_execution (now : Nat) (t : WorkflowTask) : WorkflowTask :=
  if t.state = TaskState.QUEUED.value then
    { t with state := TaskState.RUNNING.value, started_at := some now }
  else t

/-- Trigger `wait_for_dependency`: RUNNING → WAITING_FOR_DEPENDENCY
(`on_task_waiting` only logs). -/
def wait_for_dependency (t : WorkflowTask) : WorkflowTask :=
  if t.state = TaskState.RUNNING.value then
    { t with state := TaskState.WAITING_FOR_DEPENDENCY.value }
  else t

/-- Trigger `resume_execution`: WAITING_FOR_DEPENDENCY → RUNNING
(`on_task_resumed` only logs). -/
def resume_execution (t : WorkflowTask) : WorkflowTask :=
  if t.state = TaskState.WAITING_FOR_DEPENDENCY.value then
    { t with state := TaskState.RUNNING.value }
  else t

/-- Trigger `complete_task`: RUNNING, RETRYING → COMPLETED, then
`on_task_completed` (sets `completed_at`). -/
def complete_task (now : Nat) (t : WorkflowTask) : WorkflowTask :=
  if t.state = TaskState.RUNNING.value ∨ t.state = TaskState.RETRYING.value then
    { t with state := TaskState.COMPLETED.value, completed_at := some now }
  else t

/-- Trigger `retry_task`: FAILED → RETRYING, guarded by `can_retry`
(`on_task_retry` only logs; it does not change `retry_count` nor clear
`completed_at`). -/
def retry_task (t : WorkflowTask) : WorkflowTask :=
  if t.state = TaskState.FAILED.value ∧ can_retry t then
    { t with state := TaskState.RETRYING.value }
  else t

/-- Trigger `cancel_task`: QUEUED, RUNNING, WAITING_FOR_DEPENDENCY →
CANCELLED, then `on_task_cancelled` (sets `completed_at`). -/
def cancel_task (now : Nat) (t : WorkflowTask) : WorkflowTask :=
  if t.state = TaskState.QUEUED.value ∨
     t.state = TaskState.RUNNING.value ∨
     t.state = TaskState.WAITING_FOR_DEPENDENCY.value then
    { t with state := TaskState.CANCELLED.value, completed_at := some now }
  else t

/-- `on_task_reset`: clears `retry_count`, `error_message`,
`completed_steps`, `failed_steps`, `step_executions`, `final_result`,
`conversation_history`, `started_at` and `completed_at`.  It does not
touch `current_step`. -/
def on_task_reset (t : WorkflowTask) : WorkflowTask :=
  { t with retry_count := 0, error_message := none, completed_steps := [],
           failed_steps := [], step_executions := [], final_result := none,
           conversation_history := [], started_at := none,
           completed_at := none }

/-- Trigger `reset_task`: COMPLETED, FAILED, CANCELLED → IDLE, then
`on_task_reset`. -/
def reset_task (t : WorkflowTask) : WorkflowTask :=
  if t.state = TaskState.COMPLETED.value ∨
     t.state = TaskState.FAILED.value ∨
     t.state = TaskState.CANCELLED.value then
    on_task_reset { t with state := TaskState.IDLE.value }
  else t

/-! ## Orchestrator operations (`WorkflowStateMachine`) -/

/-- `WorkflowStateMachine.create_task` constructs the task in IDLE (the
store-existence and workflow-existence checks are in the store-level
wrapper; the constructed value is this). -/
def create_task (task_id workflow_name user_input : String)
    (priority : TaskPriority) (created : Nat)
    (metadata : List (String × String)) : WorkflowTask :=
  { task_id := task_id, workflow_name := workflow_name,
    user_input := user_input, priority := priority,
    created_at := some created, metadata := metadata }

/-- `WorkflowStateMachine.is_workflow_completed`: all required step names
of the workflow are members of `completed_steps` (false when the workflow
definition is unknown). -/
def is_workflow_completed (cfg : List Workflow) (task : WorkflowTask) :
    Bool :=
  match get_workflow_config cfg task.workflow_name with
  | none => false
  | some workflow =>
    let required_steps := (workflow.steps.filter (fun s => s.required)).map (fun s => s.name)
    required_steps.all (fun rs => decide (rs ∈ task.completed_steps))

/-- The `for step in workflow.steps` loop of `get_next_step`: skip steps
already in `completed_steps`; return the first remaining step all of whose
dependencies are in `completed_steps`. -/
def next_step_loop (completed : List String) :
    List WorkflowStep → Option WorkflowStep
  | [] => none
  | step :: rest =>
    if step.name ∈ completed then next_step_loop completed rest
    else if ∀ dep ∈ step.dependencies, dep ∈ completed then some step
    else next_step_loop completed rest

/-- `WorkflowStateMachine.get_next_step`. -/
def get_next_step (cfg : List Workflow) (task : WorkflowTask) :
    Option WorkflowStep :=
  match get_workflow_config cfg task.workflow_name with
  | none => none
  | some workflow => next_step_loop task.completed_steps workflow.steps

/-- `WorkflowStateMachine.execute_workflow_step`, modelled on the fetched
task (the surrounding Redis fetch/save is the store round-trip).  When the
workflow or the step is unknown the method returns early with `False` and
the task is untouched; otherwise this is the mutation it performs.
An empty error string is falsy in Python and is treated as success. -/
def execute_workflow_step (cfg : List Workflow) (now : Nat)
    (step_name : String) (execution_result : Option String)
    (error : Option String) (task : WorkflowTask) : WorkflowTask :=
  match get_workflow_config cfg task.workflow_name with
  | none => task
  | some workflow =>
    match workflow.steps.find? (fun s => s.name = step_name) with
    | none => task
    | some step_config =>
      let execution : TaskExecution :=
        { task_id := task.task_id, agent_name := step_config.agent,
          step_name := step_name, start_time := some now,
          end_time := some now, result := execution_result, error := error }
      let task := { task with step_executions := dict_set task.step_executions step_name execution }
      let errorStr := error.getD ""
      if errorStr = "" then
        let task := { task with completed_steps := task.completed_steps ++ [step_name],
                                current_step := some step_name }
        if is_workflow_completed cfg task then
          complete_task now { task with final_result := execution_result }
        else task
      else
        let task := { task with failed_steps := task.failed_steps ++ [step_name] }
        if step_config.retry_on_failure && can_retry task then
          { task with retry_count := task.retry_count + 1,
                      step_executions := dict_set task.step_executions step_name
                        { execution with retry_count := task.retry_count + 1 } }
        else
          fail_task now { task with error_message := some errorStr }

/-! ## The store and store-level operations -/

/-- The Redis store: one stored task per task id. -/
abbrev Store := List (String × WorkflowTask)

/-- `get_task`: fetch by task id. -/
def store_get (store : Store) (task_id : String) : Option WorkflowTask :=
  (store.find? (fun p => p.1 = task_id)).map (fun p => p.2)

/-- `_save_task_to_redis`: overwrite the stored snapshot for the task's
id. -/
def store_put (store : Store) (t : WorkflowTask) : Store :=
  dict_set store t.task_id t

/-- The kwargs of the Celery job dispatched for a task, with the
deterministic job id `celery_` + task id. -/
structure DispatchJob where
  user_input : String
  workflow_name : String
  priority : String
  workflow_task_id : String
  job_id : String
deriving DecidableEq, Repr

/-- The dispatch attempted by `on_task_queued` for a task. -/
def dispatch_kwargs (t : WorkflowTask) : DispatchJob :=
  { user_input := t.user_input, workflow_name := t.workflow_name,
    priority := t.priority.value, workflow_task_id := t.task_id,
    job_id := "celery_" ++ t.task_id }

/-- `WorkflowStateMachine.start_task`: fetch the task; if missing or not
IDLE, return `False` with no store write and no dispatch; otherwise fire
the `start_task` trigger (one dispatch attempt, outcome `dispatchOk`) and
save.  The third component lists the jobs dispatched to the worker
pool. -/
def start_task (now : Nat) (dispatchOk : Bool) (store : Store)
    (task_id : String) : Bool × Store × List DispatchJob :=
  match store_get store task_id with
  | none => (false, store, [])
  | some task =>
    if task.state = TaskState.IDLE.value then
      (true, store_put store (start_task_trigger now dispatchOk task),
       [dispatch_kwargs task])
    else
      (false, store, [])

/-! ## Serialization (`to_dict` / `from_dict`) -/

/-- The serialized form of a `TaskExecution` (datetimes as ISO strings). -/
structure TaskExecutionDict where
  task_id : String
  agent_name : String
  step_name : String
  start_time : Option (List Nat)
  end_time : Option (List Nat)
  result : Option String
  error : Option String
  retry_count : Nat
  metadata : List (String × String)
deriving DecidableEq, Repr

/-- The serialized form of a `WorkflowTask` (datetimes as ISO strings,
priority as its value string, no `machine` field). -/
structure WorkflowTaskDict where
  task_id : String
  workflow_name : String
  user_input : String
  state : String
  priority : String
  created_at : Option (List Nat)
  started_at : Option (List Nat)
  completed_at : Option (List Nat)
  error_message : Option String
  retry_count : Nat
  max_retries : Nat
  current_step : Option String
  completed_steps : List String
  failed_steps : List String
  step_executions : List (String × TaskExecutionDict)
  final_result : Option String
  conversation_history : List (List (String × String))
  metadata : List (String × String)
deriving DecidableEq, Repr

/-- Serialization of one `TaskExecution` inside `WorkflowTask.to_dict`
(`asdict` plus ISO conversion of the two datetimes). -/
def TaskExecution.to_dict (e : TaskExecution) : TaskExecutionDict :=
  { task_id := e.task_id, agent_name := e.agent_name,
    step_name := e.step_name, start_time := datetime_to_iso e.start_time,
    end_time := datetime_to_iso e.end_time, result := e.result,
    error := e.error, retry_count := e.retry_count,
    metadata := e.metadata }

/-- `TaskExecution(**exec_data)` after ISO→datetime conversion of the two
time fields, as done inside `WorkflowTask.from_dict`. -/
def TaskExecution.from_dict (d : TaskExecutionDict) : TaskExecution :=
  { task_id := d.task_id, agent_name := d.agent_name,
    step_name := d.step_name, start_time := iso_to_datetime d.start_time,
    end_time := iso_to_datetime d.end_time, result := d.result,
    error := d.error, retry_count := d.retry_count,
    metadata := d.metadata }

/-- `WorkflowTask.to_dict`. -/
def WorkflowTask.to_dict (t : WorkflowTask) : WorkflowTaskDict :=
  { task_id := t.task_id, workflow_name := t.workflow_name,
    user_input := t.user_input, state := t.state,
    priority := t.priority.value,
    created_at := datetime_to_iso t.created_at,
    started_at := datetime_to_iso t.started_at,
    completed_at := datetime_to_iso t.completed_at,
    error_message := t.error_message, retry_count := t.retry_count,
    max_retries := t.max_retries, current_step := t.current_step,
    completed_steps := t.completed_steps, failed_steps := t.failed_steps,
    step_executions := t.step_executions.map (fun p => (p.1, p.2.to_dict)),
    final_result := t.final_result,
    conversation_history := t.conversation_history,
    metadata := t.metadata }

/-- `WorkflowTask.from_dict`: ISO→datetime on the three timestamps, the
`TaskPriority(...)` constructor with a `NORMAL` fallback on `ValueError`,
and deserialization of each stored `TaskExecution`. -/
def WorkflowTask.from_dict (d : WorkflowTaskDict) : WorkflowTask :=
  { task_id := d.task_id, workflow_name := d.workflow_name,
    user_input := d.user_input, state := d.state,
    priority := match TaskPriority.ofValue d.priority with
                | some p => p
                | none => .NORMAL,
    created_at := iso_to_datetime d.created_at,
    started_at := iso_to_datetime d.started_at,
    completed_at := iso_to_datetime d.completed_at,
    error_message := d.error_message, retry_count := d.retry_count,
    max_retries := d.max_retries, current_step := d.current_step,
    completed_steps := d.completed_steps, failed_steps := d.failed_steps,
    step_executions := d.step_executions.map (fun p => (p.1, TaskExecution.from_dict p.2)),
    final_result := d.final_result,
    conversation_history := d.conversation_history,
    metadata := d.metadata }

/-! ## Reachability -/

/-- The task states declared to the `Machine`
(`[state.value for state in TaskState]`). -/
def machine_states : List String :=
  [TaskState.IDLE.value, TaskState.QUEUED.value, TaskState.RUNNING.value,
   TaskState.WAITING_FOR_DEPENDENCY.value, TaskState.COMPLETED.value,
   TaskState.FAILED.value, TaskState.CANCELLED.value,
   TaskState.RETRYING.value]

/-- The terminal states. -/
def terminal_states : List String :=
  [TaskState.COMPLETED.value, TaskState.FAILED.value,
   TaskState.CANCELLED.value]

/-- Tasks reachable by any sequence of engine operations from
`create_task` (every trigger the API or the worker callback can fire, and
the worker callback itself). -/
inductive Reachable (cfg : List Workflow) : WorkflowTask → Prop where
  | create (task_id workflow_name user_input : String)
      (priority : TaskPriority) (created : Nat)
      (metadata : List (String × String))
      (h : get_workflow_config cfg workflow_name ≠ none) :
      Reachable cfg (create_task task_id workflow_name user_input priority created metadata)
  | start (t : WorkflowTask) (now : Nat) (dispatchOk : Bool)
      (h : Reachable cfg t) : Reachable cfg (start_task_trigger now dispatchOk t)
  | begin_exec (t : WorkflowTask) (now : Nat) (h : Reachable cfg t) :
      Reachable cfg (begin_execution now t)
  | wait (t : WorkflowTask) (h : Reachable cfg t) :
      Reachable cfg (wait_for_dependency t)
  | resume (t : WorkflowTask) (h : Reachable cfg t) :
      Reachable cfg (resume_execution t)
  | complete (t : WorkflowTask) (now : Nat) (h : Reachable cfg t) :
      Reachable cfg (complete_task now t)
  | fail (t : WorkflowTask) (now : Nat) (h : Reachable cfg t) :
      Reachable cfg (fail_task now t)
  | retry (t : WorkflowTask) (h : Reachable cfg t) :
      Reachable cfg (retry_task t)
  | cancel (t : WorkflowTask) (now : Nat) (h : Reachable cfg t) :
      Reachable cfg (cancel_task now t)
  | reset (t : WorkflowTask) (h : Reachable cfg t) :
      Reachable cfg (reset_task t)
  | exec_step (t : WorkflowTask) (now : Nat) (step_name : String)
      (r e : Option String) (h : Reachable cfg t) :
      Reachable cfg (execute_workflow_step cfg now step_name r e t)

/-! ## Concrete fixtures (the `default` workflow of the spec's Scenario A,
plus a one-optional-step workflow) -/

def step_fetch : WorkflowStep := { name := "fetch", agent := "agent1" }

def step_summarize : WorkflowStep :=
  { name := "summarize", agent := "agent2", dependencies := ["fetch"] }

def step_analyze : WorkflowStep :=
  { name := "analyze", agent := "agent3", dependencies := ["summarize"] }

def wf_default : Workflow :=
  { name := "default", description := "demo",
    steps := [step_fetch, step_summarize, step_analyze] }

def step_optional : WorkflowStep :=
  { name := "s1", agent := "agent1", required := false,
    retry_on_failure := false }

def wf_opt : Workflow :=
  { name := "wopt", description := "one optional step",
    steps := [step_optional] }

def cfg0 : List Workflow := [wf_default]

def cfg1 : List Workflow := [wf_opt]

/-! ## Helper lemmas -/

theorem iso_roundtrip (dt : Option Nat) :
    iso_to_datetime (datetime_to_iso dt) = dt := by
  cases dt with
  | none => rfl
  | some n =>
    have h : Nat.digits 10 (n + 1) ≠ [] :=
      Nat.digits_ne_nil_iff_ne_zero.mpr (Nat.succ_ne_zero n)
    show (if Nat.digits 10 (n + 1) = [] then none
          else some (Nat.ofDigits 10 (Nat.digits 10 (n + 1)) - 1)) = some n
    rw [if_neg h, Nat.ofDigits_digits, Nat.add_sub_cancel]

theorem priority_roundtrip (p : TaskPriority) :
    TaskPriority.ofValue p.value = some p := by
  cases p <;> rfl

theorem task_execution_roundtrip (e : TaskExecution) :
    TaskExecution.from_dict e.to_dict = e := by
  cases e
  simp [TaskExecution.to_dict, TaskExecution.from_dict, iso_roundtrip]

theorem step_executions_roundtrip :
    ∀ l : List (String × TaskExecution),
      (l.map (fun p => (p.1, p.2.to_dict))).map
        (fun p => (p.1, TaskExecution.from_dict p.2)) = l
  | [] => rfl
  | (k, e) :: rest => by
    simp [step_executions_roundtrip rest, task_execution_roundtrip e]

theorem fail_task_error_message (now : Nat) (t : WorkflowTask) :
    (fail_task now t).error_message = t.error_message := by
  unfold fail_task on_task_failed
  split <;> rfl

theorem fail_task_of_source (now : Nat) (t : WorkflowTask)
    (h : t.state = TaskState.RUNNING.value ∨
         t.state = TaskState.WAITING_FOR_DEPENDENCY.value ∨
         t.state = TaskState.RETRYING.value ∨
         t.state = TaskState.QUEUED.value) :
    fail_task now t =
      { t with state := TaskState.FAILED.value, completed_at := some now } := by
  unfold fail_task on_task_failed
  rw [if_pos h]

theorem fail_task_of_not_source (now : Nat) (t : WorkflowTask)
    (h : ¬ (t.state = TaskState.RUNNING.value ∨
            t.state = TaskState.WAITING_FOR_DEPENDENCY.value ∨
            t.state = TaskState.RETRYING.value ∨
            t.state = TaskState.QUEUED.value)) :
    fail_task now t = t := by
  unfold fail_task on_task_failed
  rw [if_neg h]

theorem fail_task_fields_of_source (now : Nat) (t : WorkflowTask)
    (h : t.state = TaskState.RUNNING.value ∨
         t.state = TaskState.WAITING_FOR_DEPENDENCY.value ∨
         t.state = TaskState.RETRYING.value ∨
         t.state = TaskState.QUEUED.value) :
    (fail_task now t).state = TaskState.FAILED.value ∧
    (fail_task now t).completed_at = some now := by
  rw [fail_task_of_source now t h]
  exact ⟨rfl, rfl⟩

theorem fail_task_state_of_not_source (now : Nat) (t : WorkflowTask)
    (h : ¬ (t.state = TaskState.RUNNING.value ∨
            t.state = TaskState.WAITING_FOR_DEPENDENCY.value ∨
            t.state = TaskState.RETRYING.value ∨
            t.state = TaskState.QUEUED.value)) :
    (fail_task now t).state = t.state := by
  rw [fail_task_of_not_source now t h]

/-! ## Claim theorems -/

/-- C9: serialization round-trip — for every task (including every nested
`TaskExecution` in `step_executions`, the datetimes and the priority
enum), `WorkflowTask.from_dict (t.to_dict) = t`; the transient `machine`
handle is not part of the data model. -/
theorem C9_serialization_roundtrip (t : WorkflowTask) :
    WorkflowTask.from_dict t.to_dict = t := by
  cases t
  simp only [WorkflowTask.to_dict, WorkflowTask.from_dict, iso_roundtrip,
             priority_roundtrip, step_executions_roundtrip]

/-- C9 witness: the round-trip evaluated at a concrete task. -/
theorem C9_witness :
    WorkflowTask.from_dict (create_task "t1" "default" "hi"
      TaskPriority.HIGH 5 [("k", "v")]).to_dict =
      create_task "t1" "default" "hi" TaskPriority.HIGH 5 [("k", "v")] :=
  C9_serialization_roundtrip _

/-- C10: `WorkflowTask.from_dict` maps any priority string that is not one
of the four enumerated values to `NORMAL`, and each of the four valid
strings to its priority. -/
theorem C10_priority_fallback (d : WorkflowTaskDict) :
    (d.priority ≠ "low" → d.priority ≠ "normal" → d.priority ≠ "high" →
      d.priority ≠ "urgent" →
      (WorkflowTask.from_dict d).priority = TaskPriority.NORMAL) ∧
    (∀ p : TaskPriority, d.priority = p.value →
      (WorkflowTask.from_dict d).priority = p) := by
  constructor
  · intro h1 h2 h3 h4
    simp [WorkflowTask.from_dict, TaskPriority.ofValue, h1, h2, h3, h4]
  · intro p hp
    simp [WorkflowTask.from_dict, hp, priority_roundtrip]

def d10 : WorkflowTaskDict :=
  { task_id := "t1", workflow_name := "default", user_input := "hi",
    state := "idle", priority := "bogus", created_at := none,
    started_at := none, completed_at := none, error_message := none,
    retry_count := 0, max_retries := 3, current_step := none,
    completed_steps := [], failed_steps := [], step_executions := [],
    final_result := none, conversation_history := [], metadata := [] }

/-- C10 witness: an invalid priority string deserializes to NORMAL and a
valid one is preserved. -/
theorem C10_witness :
    (WorkflowTask.from_dict d10).priority = TaskPriority.NORMAL ∧
    (WorkflowTask.from_dict { d10 with priority := "high" }).priority =
      TaskPriority.HIGH :=
  ⟨(C10_priority_fallback d10).1 (by decide) (by decide) (by decide)
      (by decide),
   (C10_priority_fallback { d10 with priority := "high" }).2
      TaskPriority.HIGH (by decide)⟩

/-- C3: for a task whose workflow definition exists,
`is_workflow_completed` is true iff every required step's name is in
`completed_steps`, and the content of `failed_steps` has no influence on
the result. -/
theorem C3_workflow_completed_iff (cfg : List Workflow) (t : WorkflowTask)
    (wf : Workflow) (h : get_workflow_config cfg t.workflow_name = some wf) :
    (is_workflow_completed cfg t = true ↔
      ∀ s ∈ wf.steps, s.required = true → s.name ∈ t.completed_steps) ∧
    (∀ fs : List String,
      is_workflow_completed cfg { t with failed_steps := fs } =
        is_workflow_completed cfg t) := by
  constructor
  · simp only [is_workflow_completed, h]
    simp [List.all_eq_true, List.mem_map, List.mem_filter]
    constructor
    · intro H s hs hreq
      exact H s.name s hs hreq rfl
    · intro H rs s hs hreq hname
      subst hname
      exact H s hs hreq
  · intro fs
    rfl

def t3 : WorkflowTask :=
  { task_id := "t3", workflow_name := "default", user_input := "hi",
    state := TaskState.RUNNING.value,
    completed_steps := ["fetch", "summarize", "analyze"] }

/-- C3 witness: evaluated on the `default` workflow with all steps
completed, with `failed_steps` varied. -/
theorem C3_witness :
    is_workflow_completed cfg0 t3 = true ∧
    is_workflow_completed cfg0 { t3 with failed_steps := ["fetch"] } =
      is_workflow_completed cfg0 t3 := by
  have h := C3_workflow_completed_iff cfg0 t3 wf_default (by decide)
  exact ⟨h.1.mpr (by decide), h.2 ["fetch"]⟩

def t5 : WorkflowTask := create_task "t1" "default" "hi" .NORMAL 0 []

/-- C5: the claim says the `fail` effect sets both `completed_at` and
`error_message`, so a task failed via the dispatch-failure path has a
non-null `error_message`.  The code's `on_task_failed` sets only
`completed_at`; the `error_message=` keyword passed to `fail_task` in the
dispatch-failure path is dropped by the callbacks, so the task ends up
FAILED with `completed_at` set and `error_message` still `None`. -/
theorem C5_fail_effect_no_error_message :
    (∀ (now : Nat) (t : WorkflowTask),
      (fail_task now t).error_message = t.error_message) ∧
    (start_task_trigger 5 false t5).state = TaskState.FAILED.value ∧
    (start_task_trigger 5 false t5).completed_at = some 5 ∧
    (start_task_trigger 5 false t5).error_message = none :=
  ⟨fail_task_error_message, by decide, by decide, by decide⟩

/-- A step is runnable for a set of completed steps: it is not itself
completed and all its dependencies are completed. -/
def step_runnable (completed : List String) (s : WorkflowStep) : Prop :=
  s.name ∉ completed ∧ ∀ dep ∈ s.dependencies, dep ∈ completed

theorem next_step_loop_eq_none (completed : List String) :
    ∀ steps : List WorkflowStep,
      next_step_loop completed steps = none ↔
        ∀ s ∈ steps, ¬ step_runnable completed s := by
  intro steps
  induction steps with
  | nil => simp [next_step_loop]
  | cons step rest ih =>
    by_cases h1 : step.name ∈ completed
    · rw [show next_step_loop completed (step :: rest) =
            next_step_loop completed rest from by
          simp [next_step_loop, h1], ih]
      constructor
      · intro H s hs
        rcases List.mem_cons.mp hs with rfl | hs
        · intro hr
          exact hr.1 h1
        · exact H s hs
      · intro H s hs
        exact H s (List.mem_cons_of_mem _ hs)
    · by_cases h2 : ∀ dep ∈ step.dependencies, dep ∈ completed
      · rw [show next_step_loop completed (step :: rest) = some step from by
          simp only [next_step_loop]; rw [if_neg h1, if_pos h2]]
        refine iff_of_false (by simp) ?_
        intro H
        exact H step (List.mem_cons_self _ _) ⟨h1, h2⟩
      · rw [show next_step_loop completed (step :: rest) =
              next_step_loop completed rest from by
            simp [next_step_loop, h1, h2], ih]
        constructor
        · intro H s hs
          rcases List.mem_cons.mp hs with rfl | hs
          · intro hr
            exact h2 hr.2
          · exact H s hs
        · intro H s hs
          exact H s (List.mem_cons_of_mem _ hs)

theorem next_step_loop_eq_some (completed : List String) :
    ∀ (steps : List WorkflowStep) (s : WorkflowStep),
      next_step_loop completed steps = some s →
        step_runnable completed s ∧
        ∃ l1 l2, steps = l1 ++ s :: l2 ∧
          ∀ x ∈ l1, ¬ step_runnable completed x := by
  intro steps
  induction steps with
  | nil => intro s h; simp [next_step_loop] at h
  | cons step rest ih =>
    intro s h
    by_cases h1 : step.name ∈ completed
    · have h' : next_step_loop completed rest = some s := by
        simpa [next_step_loop, h1] using h
      obtain ⟨hr, l1, l2, heq, hall⟩ := ih s h'
      refine ⟨hr, step :: l1, l2, by rw [heq]; rfl, ?_⟩
      intro x hx
      rcases List.mem_cons.mp hx with rfl | hx
      · intro hc
        exact hc.1 h1
      · exact hall x hx
    · by_cases h2 : ∀ dep ∈ step.dependencies, dep ∈ completed
      · have hs : step = s := by
          rw [show next_step_loop completed (step :: rest) = some step from by
            simp only [next_step_loop]; rw [if_neg h1, if_pos h2]] at h
          exact Option.some.inj h
        subst hs
        exact ⟨⟨h1, h2⟩, [], rest, rfl, by simp⟩
      · have h' : next_step_loop completed rest = some s := by
          simpa [next_step_loop, h1, h2] using h
        obtain ⟨hr, l1, l2, heq, hall⟩ := ih s h'
        refine ⟨hr, step :: l1, l2, by rw [heq]; rfl, ?_⟩
        intro x hx
        rcases List.mem_cons.mp hx with rfl | hx
        · intro hc
          exact h2 hc.2
        · exact hall x hx

/-- C2: for a task whose workflow definition exists, `get_next_step`
returns the first step in declared order that is not in `completed_steps`
and whose dependencies are all in `completed_steps`, and returns `none`
exactly when no step of the workflow satisfies both conditions. -/
theorem C2_get_next_step_first (cfg : List Workflow) (t : WorkflowTask)
    (wf : Workflow) (h : get_workflow_config cfg t.workflow_name = some wf) :
    (∀ s, get_next_step cfg t = some s →
       step_runnable t.completed_steps s ∧
       ∃ l1 l2, wf.steps = l1 ++ s :: l2 ∧
         ∀ x ∈ l1, ¬ step_runnable t.completed_steps x) ∧
    (get_next_step cfg t = none ↔
       ∀ s ∈ wf.steps, ¬ step_runnable t.completed_steps s) := by
  constructor
  · intro s hs
    rw [show get_next_step cfg t = next_step_loop t.completed_steps wf.steps
          from by simp [get_next_step, h]] at hs
    exact next_step_loop_eq_some _ _ s hs
  · rw [show get_next_step cfg t = next_step_loop t.completed_steps wf.steps
          from by simp [get_next_step, h]]
    exact next_step_loop_eq_none _ _

def t2 : WorkflowTask :=
  { task_id := "t2", workflow_name := "default", user_input := "hi",
    state := TaskState.RUNNING.value, completed_steps := ["fetch"] }

/-- C2 witness: on the `default` workflow with `fetch` completed, the
returned step (`summarize`) is runnable and is the first runnable step in
declared order. -/
theorem C2_witness :
    step_runnable t2.completed_steps step_summarize ∧
    ∃ l1 l2, wf_default.steps = l1 ++ step_summarize :: l2 ∧
      ∀ x ∈ l1, ¬ step_runnable t2.completed_steps x :=
  (C2_get_next_step_first cfg0 t2 wf_default (by decide)).1 step_summarize
    (by decide)

def t4 : WorkflowTask :=
  { task_id := "t4", workflow_name := "default", user_input := "hi",
    state := TaskState.COMPLETED.value, completed_at := some 9,
    current_step := some "fetch", completed_steps := ["fetch"] }

/-- C4 counterexample: resetting a COMPLETED task moves it to IDLE but
does not clear `current_step`, contradicting the claim that reset clears
all execution bookkeeping including `current_step`. -/
theorem C4_counterexample :
    (reset_task t4).state = TaskState.IDLE.value ∧
    (reset_task t4).current_step = some "fetch" := by decide

/-- C4 (amended): for a task in COMPLETED, FAILED or CANCELLED, `reset`
moves it to IDLE and clears `completed_steps`, `failed_steps`,
`step_executions`, `error_message`, `retry_count`, `started_at`,
`completed_at` (and also `final_result` and `conversation_history`), but
leaves `current_step` unchanged. -/
theorem C4_amended_reset (t : WorkflowTask)
    (h : t.state = TaskState.COMPLETED.value ∨
         t.state = TaskState.FAILED.value ∨
         t.state = TaskState.CANCELLED.value) :
    reset_task t =
      { t with state := TaskState.IDLE.value, retry_count := 0,
               error_message := none, completed_steps := [],
               failed_steps := [], step_executions := [],
               final_result := none, conversation_history := [],
               started_at := none, completed_at := none } ∧
    (reset_task t).current_step = t.current_step := by
  have heq : reset_task t = on_task_reset { t with state := TaskState.IDLE.value } := by
    unfold reset_task
    rw [if_pos h]
  constructor
  · rw [heq]; rfl
  · rw [heq]; rfl

/-- C4 witness: the amended reset behaviour evaluated on a concrete
COMPLETED task. -/
theorem C4_witness :
    reset_task t4 =
      { t4 with state := TaskState.IDLE.value, retry_count := 0,
                error_message := none, completed_steps := [],
                failed_steps := [], step_executions := [],
                final_result := none, conversation_history := [],
                started_at := none, completed_at := none } ∧
    (reset_task t4).current_step = t4.current_step :=
  C4_amended_reset t4 (Or.inl (by decide))

/-- C8: `start_task` on a stored task that is not IDLE returns `False`,
leaves the store (hence the task and every one of its fields) unchanged,
and dispatches no job to the worker pool. -/
theorem C8_start_task_not_idle (now : Nat) (dispatchOk : Bool)
    (store : Store) (task_id : String) (t : WorkflowTask)
    (hget : store_get store task_id = some t)
    (hstate : t.state ≠ TaskState.IDLE.value) :
    start_task now dispatchOk store task_id = (false, store, []) := by
  simp [start_task, hget, hstate]

def t8 : WorkflowTask :=
  { task_id := "t8", workflow_name := "default", user_input := "x",
    state := TaskState.RUNNING.value }

def store8 : Store := [("t8", t8)]

/-- C8 witness: starting a RUNNING task is a no-op with no dispatch. -/
theorem C8_witness :
    start_task 3 true store8 "t8" = (false, store8, []) :=
  C8_start_task_not_idle 3 true store8 "t8" t8 (by decide) (by decide)

def t1_running : WorkflowTask :=
  { task_id := "t1", workflow_name := "wopt", user_input := "hi",
    state := TaskState.RUNNING.value }

/-- C1 counterexample: a non-retryable error on an OPTIONAL step
(`required = false`) does not leave the task running — the code fires
`fail` regardless of the `required` flag, so the task becomes FAILED. -/
theorem C1_counterexample :
    step_optional.required = false ∧
    (execute_workflow_step cfg1 7 "s1" none (some "boom") t1_running).state =
      TaskState.FAILED.value := by decide

/-- C1 (amended): when `execute_workflow_step` is called with a non-empty
error and the step does not qualify for a retry (`retry_on_failure` false
or no retry budget), the code sets `error_message` and fires `fail`
regardless of the step's `required` flag: the task becomes FAILED (with
`completed_at` set) whenever its state is a valid source of `fail`, and
keeps its state otherwise; an optional step is treated exactly like a
required one. -/
theorem C1_amended_error_fails_task (cfg : List Workflow) (now : Nat)
    (sn : String) (r : Option String) (e : String) (t : WorkflowTask)
    (wf : Workflow) (sc : WorkflowStep)
    (hwf : get_workflow_config cfg t.workflow_name = some wf)
    (hsc : wf.steps.find? (fun s => s.name = sn) = some sc)
    (he : e ≠ "")
    (hnr : sc.retry_on_failure = false ∨ t.max_retries ≤ t.retry_count) :
    (execute_workflow_step cfg now sn r (some e) t).error_message = some e ∧
    (t.state = TaskState.RUNNING.value ∨
     t.state = TaskState.WAITING_FOR_DEPENDENCY.value ∨
     t.state = TaskState.RETRYING.value ∨
     t.state = TaskState.QUEUED.value →
      (execute_workflow_step cfg now sn r (some e) t).state =
        TaskState.FAILED.value ∧
      (execute_workflow_step cfg now sn r (some e) t).completed_at =
        some now) ∧
    (¬ (t.state = TaskState.RUNNING.value ∨
        t.state = TaskState.WAITING_FOR_DEPENDENCY.value ∨
        t.state = TaskState.RETRYING.value ∨
        t.state = TaskState.QUEUED.value) →
      (execute_workflow_step cfg now sn r (some e) t).state = t.state) := by
  have hb : (sc.retry_on_failure && decide (t.retry_count < t.max_retries)) = false := by
    rcases hnr with h | h
    · simp [h]
    · simp [Nat.not_lt.mpr h]
  have hred : execute_workflow_step cfg now sn r (some e) t =
      fail_task now
        { t with
            step_executions := dict_set t.step_executions sn
              { task_id := t.task_id, agent_name := sc.agent,
                step_name := sn, start_time := some now,
                end_time := some now, result := r, error := some e },
            failed_steps := t.failed_steps ++ [sn],
            error_message := some e } := by
    simp only [execute_workflow_step, hwf, hsc, Option.getD_some]
    rw [if_neg he]
    simp only [can_retry, hb, Bool.false_eq_true, if_false]
  refine ⟨?_, ?_, ?_⟩
  · rw [hred, fail_task_error_message]
  · intro hsrc
    rw [hred]
    exact fail_task_fields_of_source now _ hsrc
  · intro hsrc
    rw [hred]
    exact fail_task_state_of_not_source now _ hsrc

/-- C1 witness: the amended behaviour evaluated on the optional
non-retryable step of `wf_opt` with a RUNNING task. -/
theorem C1_witness :
    (execute_workflow_step cfg1 7 "s1" none (some "boom") t1_running).error_message =
      some "boom" ∧
    (execute_workflow_step cfg1 7 "s1" none (some "boom") t1_running).completed_at =
      some 7 := by
  have h := C1_amended_error_fails_task cfg1 7 "s1" none "boom" t1_running
    wf_opt step_optional (by decide) (by decide) (by decide)
    (Or.inl (by decide))
  exact ⟨h.1, (h.2.1 (Or.inl (by decide))).2⟩

/-! ## Shape lemmas for the triggers (used by the reachability
inductions) -/

theorem start_task_trigger_cases (now : Nat) (dOk : Bool) (t : WorkflowTask) :
    start_task_trigger now dOk t = t ∨
    start_task_trigger now dOk t =
      { t with state := TaskState.QUEUED.value,
               metadata := dict_set t.metadata "celery_task_id"
                 ("celery_" ++ t.task_id) } ∨
    start_task_trigger now dOk t =
      { t with state := TaskState.FAILED.value,
               completed_at := some now } := by
  unfold start_task_trigger on_task_queued
  by_cases h : t.state = TaskState.IDLE.value
  · rw [if_pos h]
    by_cases hd : dOk = true
    · rw [if_pos hd]
      right; left; rfl
    · rw [if_neg hd]
      rw [fail_task_of_source now { t with state := TaskState.QUEUED.value }
        (Or.inr (Or.inr (Or.inr rfl)))]
      right; right; rfl
  · rw [if_neg h]
    left; rfl

theorem begin_execution_cases (now : Nat) (t : WorkflowTask) :
    begin_execution now t = t ∨
    begin_execution now t =
      { t with state := TaskState.RUNNING.value, started_at := some now } := by
  unfold begin_execution
  split
  · right; rfl
  · left; rfl

theorem wait_for_dependency_cases (t : WorkflowTask) :
    wait_for_dependency t = t ∨
    wait_for_dependency t =
      { t with state := TaskState.WAITING_FOR_DEPENDENCY.value } := by
  unfold wait_for_dependency
  split
  · right; rfl
  · left; rfl

theorem resume_execution_cases (t : WorkflowTask) :
    resume_execution t = t ∨
    resume_execution t = { t with state := TaskState.RUNNING.value } := by
  unfold resume_execution
  split
  · right; rfl
  · left; rfl

theorem complete_task_cases (now : Nat) (t : WorkflowTask) :
    complete_task now t = t ∨
    complete_task now t =
      { t with state := TaskState.COMPLETED.value,
               completed_at := some now } := by
  unfold complete_task
  split
  · right; rfl
  · left; rfl

theorem fail_task_cases (now : Nat) (t : WorkflowTask) :
    fail_task now t = t ∨
    fail_task now t =
      { t with state := TaskState.FAILED.value,
               completed_at := some now } := by
  unfold fail_task on_task_failed
  split
  · right; rfl
  · left; rfl

theorem retry_task_cases (t : WorkflowTask) :
    retry_task t = t ∨
    retry_task t = { t with state := TaskState.RETRYING.value } := by
  unfold retry_task
  split
  · right; rfl
  · left; rfl

theorem cancel_task_cases (now : Nat) (t : WorkflowTask) :
    cancel_task now t = t ∨
    cancel_task now t =
      { t with state := TaskState.CANCELLED.value,
               completed_at := some now } := by
  unfold cancel_task
  split
  · right; rfl
  · left; rfl

theorem reset_task_cases (t : WorkflowTask) :
    reset_task t = t ∨
    reset_task t =
      { t with state := TaskState.IDLE.value, retry_count := 0,
               error_message := none, completed_steps := [],
               failed_steps := [], step_executions := [],
               final_result := none, conversation_history := [],
               started_at := none, completed_at := none } := by
  unfold reset_task on_task_reset
  split
  · right; rfl
  · left; rfl

/-- Case analysis of `execute_workflow_step`: either it only touches
bookkeeping fields (retrying increments `retry_count` only under the
budget), or it hands a bookkeeping-updated task to `fail_task` or
`complete_task`. -/
theorem execute_workflow_step_cases (cfg : List Workflow) (now : Nat)
    (sn : String) (r e : Option String) (t : WorkflowTask) :
    (∃ u, execute_workflow_step cfg now sn r e t = u ∧
       u.state = t.state ∧ u.completed_at = t.completed_at ∧
       u.max_retries = t.max_retries ∧
       (u.retry_count = t.retry_count ∨
         (t.retry_count < t.max_retries ∧
          u.retry_count = t.retry_count + 1))) ∨
    (∃ u, (execute_workflow_step cfg now sn r e t = fail_task now u ∨
           execute_workflow_step cfg now sn r e t = complete_task now u) ∧
       u.state = t.state ∧ u.completed_at = t.completed_at ∧
       u.max_retries = t.max_retries ∧ u.retry_count = t.retry_count) := by
  unfold execute_workflow_step
  split
  · left
    exact ⟨t, rfl, rfl, rfl, rfl, Or.inl rfl⟩
  · split
    · left
      exact ⟨t, rfl, rfl, rfl, rfl, Or.inl rfl⟩
    · dsimp only
      split
      · split
        · right
          exact ⟨_, Or.inr rfl, rfl, rfl, rfl, rfl⟩
        · left
          exact ⟨_, rfl, rfl, rfl, rfl, Or.inl rfl⟩
      · split
        · rename_i hret
          left
          refine ⟨_, rfl, rfl, rfl, rfl, Or.inr ⟨?_, rfl⟩⟩
          exact of_decide_eq_true (Bool.and_eq_true _ _ ▸ hret).2
        · right
          exact ⟨_, Or.inl rfl, rfl, rfl, rfl, rfl⟩

theorem value_mem_machine_states (s : TaskState) :
    TaskState.value s ∈ machine_states := by
  cases s <;> decide

theorem value_not_terminal (s : TaskState)
    (h1 : s ≠ TaskState.COMPLETED) (h2 : s ≠ TaskState.FAILED)
    (h3 : s ≠ TaskState.CANCELLED) :
    TaskState.value s ∉ terminal_states := by
  cases s <;>
    first
      | decide
      | exact absurd rfl h1
      | exact absurd rfl h2
      | exact absurd rfl h3

/-- C6: for every reachable task, `retry_count ≤ max_retries`; the
`retry_task` trigger fired on a FAILED task with exhausted budget is
refused by the `can_retry` guard and leaves the task unchanged (hence in
FAILED); and `execute_workflow_step` leaves `retry_count` unchanged
whenever the budget is exhausted (it increments only under
`retry_count < max_retries`). -/
theorem C6_retry_budget :
    (∀ (cfg : List Workflow) (t : WorkflowTask), Reachable cfg t →
      t.retry_count ≤ t.max_retries) ∧
    (∀ t : WorkflowTask, t.state = TaskState.FAILED.value →
      t.max_retries ≤ t.retry_count → retry_task t = t) ∧
    (∀ (cfg : List Workflow) (now : Nat) (sn : String) (r e : Option String)
      (t : WorkflowTask), t.max_retries ≤ t.retry_count →
      (execute_workflow_step cfg now sn r e t).retry_count = t.retry_count) := by
  refine ⟨?_, ?_, ?_⟩
  · intro cfg t h
    induction h with
    | create tid wn ui p c md hw => exact Nat.zero_le _
    | start t now dOk h ih =>
      rcases start_task_trigger_cases now dOk t with heq | heq | heq <;>
        rw [heq] <;> exact ih
    | begin_exec t now h ih =>
      rcases begin_execution_cases now t with heq | heq <;>
        rw [heq] <;> exact ih
    | wait t h ih =>
      rcases wait_for_dependency_cases t with heq | heq <;>
        rw [heq] <;> exact ih
    | resume t h ih =>
      rcases resume_execution_cases t with heq | heq <;>
        rw [heq] <;> exact ih
    | complete t now h ih =>
      rcases complete_task_cases now t with heq | heq <;>
        rw [heq] <;> exact ih
    | fail t now h ih =>
      rcases fail_task_cases now t with heq | heq <;>
        rw [heq] <;> exact ih
    | retry t h ih =>
      rcases retry_task_cases t with heq | heq <;>
        rw [heq] <;> exact ih
    | cancel t now h ih =>
      rcases cancel_task_cases now t with heq | heq <;>
        rw [heq] <;> exact ih
    | reset t h ih =>
      rcases reset_task_cases t with heq | heq <;> rw [heq]
      · exact ih
      · exact Nat.zero_le _
    | exec_step t now sn r e h ih =>
      rcases execute_workflow_step_cases cfg now sn r e t with
        ⟨u, heq, _, _, hmax, hrc⟩ | ⟨u, heq, hst, hca, hmax, hrc⟩
      · rw [heq]
        rcases hrc with h1 | ⟨hlt, h1⟩
        · rw [h1, hmax]; exact ih
        · rw [h1, hmax]; omega
      · rcases heq with heq | heq
        · rw [heq]
          rcases fail_task_cases now u with h2 | h2 <;> rw [h2]
          · rw [hrc, hmax]; exact ih
          · show u.retry_count ≤ u.max_retries
            rw [hrc, hmax]; exact ih
        · rw [heq]
          rcases complete_task_cases now u with h2 | h2 <;> rw [h2]
          · rw [hrc, hmax]; exact ih
          · show u.retry_count ≤ u.max_retries
            rw [hrc, hmax]; exact ih
  · intro t h1 h2
    have hc : ¬ (t.state = TaskState.FAILED.value ∧ can_retry t = true) :=
      fun hand =>
        absurd (of_decide_eq_true hand.2) (Nat.not_lt.mpr h2)
    unfold retry_task
    rw [if_neg hc]
  · intro cfg now sn r e t hle
    rcases execute_workflow_step_cases cfg now sn r e t with
      ⟨u, heq, _, _, _, hrc⟩ | ⟨u, heq, _, _, _, hrc⟩
    · rw [heq]
      rcases hrc with h1 | ⟨hlt, _⟩
      · exact h1
      · omega
    · rcases heq with heq | heq
      · rw [heq]
        rcases fail_task_cases now u with h2 | h2 <;> rw [h2]
        · exact hrc
        · show u.retry_count = t.retry_count
          exact hrc
      · rw [heq]
        rcases complete_task_cases now u with h2 | h2 <;> rw [h2]
        · exact hrc
        · show u.retry_count = t.retry_count
          exact hrc

def t6 : WorkflowTask :=
  { task_id := "t6", workflow_name := "default", user_input := "hi",
    state := TaskState.FAILED.value, retry_count := 3,
    completed_at := some 2 }

/-- C6 witness: the invariant at a freshly created task, the refused
retry on an exhausted FAILED task, and the unchanged `retry_count` of an
exhausted task through the worker callback. -/
theorem C6_witness :
    (create_task "t1" "default" "hi" TaskPriority.NORMAL 0 []).retry_count ≤
      (create_task "t1" "default" "hi" TaskPriority.NORMAL 0 []).max_retries ∧
    retry_task t6 = t6 ∧
    (execute_workflow_step cfg0 4 "fetch" none (some "x") t6).retry_count =
      t6.retry_count :=
  ⟨C6_retry_budget.1 cfg0 _
      (Reachable.create "t1" "default" "hi" TaskPriority.NORMAL 0 []
        (by decide)),
   C6_retry_budget.2.1 t6 (by decide) (by decide),
   C6_retry_budget.2.2 cfg0 4 "fetch" none (some "x") t6 (by decide)⟩

def t7 : WorkflowTask :=
  retry_task (fail_task 3 (start_task_trigger 1 true
    (create_task "t7" "default" "hi" TaskPriority.NORMAL 0 [])))

/-- C7 counterexample: a reachable task that went IDLE → QUEUED → FAILED
→ RETRYING keeps the `completed_at` stamped at failure time, so it is a
non-terminal task with `completed_at` set — the claimed equivalence
(`completed_at` set iff terminal) is false. -/
theorem C7_counterexample :
    Reachable cfg0 t7 ∧ t7.state = TaskState.RETRYING.value ∧
    t7.state ∉ terminal_states ∧ t7.completed_at = some 3 := by
  refine ⟨?_, by decide, by decide, by decide⟩
  exact Reachable.retry _ (Reachable.fail _ 3 (Reachable.start _ 1 true
    (Reachable.create "t7" "default" "hi" TaskPriority.NORMAL 0 []
      (by decide))))

/-- C7 (amended): for every reachable task the state is one of the 8
enumerated values, and every task in a terminal state (COMPLETED, FAILED,
CANCELLED) has `completed_at` set.  The converse direction of the claim is
false: a RETRYING task reached via `retry` retains `completed_at` (see the
counterexample). -/
theorem C7_amended_state_invariant (cfg : List Workflow) (t : WorkflowTask)
    (h : Reachable cfg t) :
    t.state ∈ machine_states ∧
    (t.state ∈ terminal_states → t.completed_at ≠ none) := by
  induction h with
  | create tid wn ui p c md hw =>
    exact ⟨value_mem_machine_states TaskState.IDLE,
        fun hmem => absurd hmem
          (value_not_terminal TaskState.IDLE (by decide) (by decide) (by decide))⟩
  | start t now dOk h ih =>
    rcases start_task_trigger_cases now dOk t with heq | heq | heq <;> rw [heq]
    · exact ih
    · exact ⟨value_mem_machine_states TaskState.QUEUED,
        fun hmem => absurd hmem
          (value_not_terminal TaskState.QUEUED (by decide) (by decide) (by decide))⟩
    · exact ⟨value_mem_machine_states TaskState.FAILED,
        fun _ => Option.some_ne_none now⟩
  | begin_exec t now h ih =>
    rcases begin_execution_cases now t with heq | heq <;> rw [heq]
    · exact ih
    · exact ⟨value_mem_machine_states TaskState.RUNNING,
        fun hmem => absurd hmem
          (value_not_terminal TaskState.RUNNING (by decide) (by decide) (by decide))⟩
  | wait t h ih =>
    rcases wait_for_dependency_cases t with heq | heq <;> rw [heq]
    · exact ih
    · exact ⟨value_mem_machine_states TaskState.WAITING_FOR_DEPENDENCY,
        fun hmem => absurd hmem
          (value_not_terminal TaskState.WAITING_FOR_DEPENDENCY (by decide) (by decide) (by decide))⟩
  | resume t h ih =>
    rcases resume_execution_cases t with heq | heq <;> rw [heq]
    · exact ih
    · exact ⟨value_mem_machine_states TaskState.RUNNING,
        fun hmem => absurd hmem
          (value_not_terminal TaskState.RUNNING (by decide) (by decide) (by decide))⟩
  | complete t now h ih =>
    rcases complete_task_cases now t with heq | heq <;> rw [heq]
    · exact ih
    · exact ⟨value_mem_machine_states TaskState.COMPLETED,
        fun _ => Option.some_ne_none now⟩
  | fail t now h ih =>
    rcases fail_task_cases now t with heq | heq <;> rw [heq]
    · exact ih
    · exact ⟨value_mem_machine_states TaskState.FAILED,
        fun _ => Option.some_ne_none now⟩
  | retry t h ih =>
    rcases retry_task_cases t with heq | heq <;> rw [heq]
    · exact ih
    · exact ⟨value_mem_machine_states TaskState.RETRYING,
        fun hmem => absurd hmem
          (value_not_terminal TaskState.RETRYING (by decide) (by decide) (by decide))⟩
  | cancel t now h ih =>
    rcases cancel_task_cases now t with heq | heq <;> rw [heq]
    · exact ih
    · exact ⟨value_mem_machine_states TaskState.CANCELLED,
        fun _ => Option.some_ne_none now⟩
  | reset t h ih =>
    rcases reset_task_cases t with heq | heq <;> rw [heq]
    · exact ih
    · exact ⟨value_mem_machine_states TaskState.IDLE,
        fun hmem => absurd hmem
          (value_not_terminal TaskState.IDLE (by decide) (by decide) (by decide))⟩
  | exec_step t now sn r e h ih =>
    rcases execute_workflow_step_cases cfg now sn r e t with
      ⟨u, heq, hst, hca, _, _⟩ | ⟨u, heq, hst, hca, _, _⟩
    · rw [heq]
      exact ⟨by rw [hst]; exact ih.1, by rw [hst, hca]; exact ih.2⟩
    · rcases heq with heq | heq
      · rw [heq]
        rcases fail_task_cases now u with h2 | h2 <;> rw [h2]
        · exact ⟨by rw [hst]; exact ih.1, by rw [hst, hca]; exact ih.2⟩
        · exact ⟨value_mem_machine_states TaskState.FAILED,
        fun _ => Option.some_ne_none now⟩
      · rw [heq]
        rcases complete_task_cases now u with h2 | h2 <;> rw [h2]
        · exact ⟨by rw [hst]; exact ih.1, by rw [hst, hca]; exact ih.2⟩
        · exact ⟨value_mem_machine_states TaskState.COMPLETED,
        fun _ => Option.some_ne_none now⟩

/-- C7 witness: the amended invariant at a freshly created task. -/
theorem C7_witness :
    (create_task "t9" "default" "hi" TaskPriority.NORMAL 0 []).state ∈
      machine_states ∧
    ((create_task "t9" "default" "hi" TaskPriority.NORMAL 0 []).state ∈
      terminal_states →
      (create_task "t9" "default" "hi" TaskPriority.NORMAL 0 []).completed_at ≠
        none) :=
  C7_amended_state_invariant cfg0 _
    (Reachable.create "t9" "default" "hi" TaskPriority.NORMAL 0 []
      (by decide))
